import Mathlib

/-!
Verification development for the sarcalnet submission tools
(`scn_db_tools/ingester.py`).  The Python `Ingester` class is shallowly
embedded: spreadsheet cells become `Value`, pandas rows become structures
of `Value` fields, the validation-mode/commit-mode switch becomes a `Bool`
parameter, printed diagnostics become an accumulated `List String`, and a
raised Python exception becomes the `.error` branch of an `Except`, carrying
the diagnostics printed before the raise together with the exception kind.
External collaborators (dateutil date parsing, HTTP status codes) are
passed in as explicit function parameters.
-/

/-- A spreadsheet cell as pandas hands it to the validators: a float NaN
(blank cell), Python `None` (after `df.replace(math.nan, None)`), a string,
a number (modelled as a rational), or a boolean. -/
inductive Value where
  | nan : Value
  | null : Value
  | str : String → Value
  | num : ℚ → Value
  | boolean : Bool → Value
deriving DecidableEq, Repr

/-- Python exceptions relevant to the validators: `ValueError` (raised by the
validators themselves and caught by their `except ValueError` handlers) and the
uncaught kinds (`TypeError` from comparing or converting incompatible types,
`AttributeError` from calling a string method on a non-string). -/
inductive Exc where
  | valueError : String → Exc
  | typeError : Exc
  | attributeError : Exc
deriving DecidableEq, Repr

/- Character-list implementations of the Python string operations the
ingester uses (Python strings are sequences of code points, so the
character-list view is the faithful one). -/

def isWs (c : Char) : Bool := c.isWhitespace

/-- Python `s.split(sep)` for a one-character separator (`"".split(sep)`
gives `[""]`, like Python). -/
def splitChar (c : Char) : List Char → List (List Char)
  | [] => [[]]
  | x :: xs =>
    let r := splitChar c xs
    if x = c then [] :: r
    else
      match r with
      | h :: t => (x :: h) :: t
      | [] => [[x]]

def pySplit (c : Char) (s : String) : List String := (splitChar c s.data).map String.mk

def stripChars (l : List Char) : List Char :=
  ((l.dropWhile isWs).reverse.dropWhile isWs).reverse

/-- Python `s.strip()`. -/
def pyStrip (s : String) : String := String.mk (stripChars s.data)

/-- Python `s.lower()`. -/
def lowerStr (s : String) : String := String.mk (s.data.map Char.toLower)

/-- Python `s.upper()`. -/
def upperStr (s : String) : String := String.mk (s.data.map Char.toUpper)

/-- Python `s.startswith(pre)`. -/
def strStarts (s pre : String) : Bool := pre.data.isPrefixOf s.data

/-- Python `s.endswith(suf)`. -/
def strEnds (s suf : String) : Bool := suf.data.reverse.isPrefixOf s.data.reverse

def strHasChar (s : String) (c : Char) : Bool := s.data.any (fun x => x = c)

def strDropL (s : String) (n : Nat) : String := String.mk (s.data.drop n)

def strDropR (s : String) (n : Nat) : String := String.mk ((s.data.reverse.drop n).reverse)

def strTakeR (s : String) (n : Nat) : String := String.mk ((s.data.reverse.take n).reverse)

/-- Python `<` on strings: lexicographic comparison of code points. -/
def charListLt : List Char → List Char → Bool
  | [], [] => false
  | [], _ :: _ => true
  | _ :: _, [] => false
  | a :: as, b :: bs => if a < b then true else if b < a then false else charListLt as bs

def strLtB (a b : String) : Bool := charListLt a.data b.data

/- Rational arithmetic written through `Rat.divInt` (numerically identical
to the field operations, and evaluable). -/

def qnat (n : Nat) : ℚ := Rat.divInt n 1

def qneg (a : ℚ) : ℚ := Rat.divInt (-a.num) a.den

def qadd (a b : ℚ) : ℚ := Rat.divInt (a.num * b.den + b.num * a.den) (a.den * b.den)

def qsub (a b : ℚ) : ℚ := qadd a (qneg b)

def qmul (a b : ℚ) : ℚ := Rat.divInt (a.num * b.num) (a.den * b.den)

/-- `a / b` on rationals. -/
def qdivQ (a b : ℚ) : ℚ := Rat.divInt (a.num * b.den) (a.den * b.num)

def qsum (l : List ℚ) : ℚ := l.foldr qadd 0


/-- Decimal rendering of a rational, used to model `str()` of a Python float:
if the denominator divides a power of ten the exact decimal expansion is
produced (`1/2 ↦ "0.5"`, `10 ↦ "10"`), otherwise a fraction fallback. -/
def decFormat (q : ℚ) : String :=
  let sign := if q < 0 then "-" else ""
  let n := q.num.natAbs
  let d := q.den
  match (List.range 31).find? (fun k => 10 ^ k % d = 0) with
  | some k =>
      let scaled := n * (10 ^ k / d)
      if k = 0 then sign ++ toString scaled
      else
        let s := toString scaled
        let s := (String.mk (List.replicate (k + 1 - s.length) '0')) ++ s
        sign ++ strDropR s k ++ "." ++ strTakeR s k
  | Option.none => sign ++ toString n ++ "/" ++ toString d

/-- Python `str()` of a cell value: `str(nan) = "nan"`, `str(None) = "None"`. -/
def pyStr : Value → String
  | Value.nan => "nan"
  | Value.null => "None"
  | Value.str s => s
  | Value.num q => decFormat q
  | Value.boolean b => if b then "True" else "False"

/-- Python truthiness of a cell value: NaN is a nonzero float and hence truthy,
`None` is falsy, a string is truthy iff nonempty, a number iff nonzero. -/
def pyTruthy : Value → Bool
  | Value.nan => true
  | Value.null => false
  | Value.str s => s ≠ ""
  | Value.num q => q ≠ 0
  | Value.boolean b => b

def allDigits (s : String) : Bool := s.data.all Char.isDigit && s ≠ ""

def digitsVal (l : List Char) : Nat :=
  l.foldl (fun a c => a * 10 + (c.toNat - 48)) 0

/-- The value of a Python float as far as the validators compare it: a finite
rational, a signed infinity, or NaN. -/
inductive PyFloat where
  | finite : ℚ → PyFloat
  | inf : PyFloat
  | ninf : PyFloat
  | nan : PyFloat
deriving DecidableEq, Repr

/-- Mantissa of a float literal: `digits`, `digits.digits`, `digits.` or
`.digits`, with at least one digit overall. -/
def mantVal (m : String) : Option ℚ :=
  match pySplit '.' m with
  | [a] => if allDigits a then some (qnat (digitsVal a.data)) else Option.none
  | [a, b] =>
    if (a.data.all Char.isDigit && b.data.all Char.isDigit) && (a ≠ "" || b ≠ "") then
      some (Rat.divInt (digitsVal a.data * 10 ^ b.data.length + digitsVal b.data)
        ((10 : Nat) ^ b.data.length))
    else Option.none
  | _ => Option.none

def expVal (x : String) : Option ℤ :=
  let neg := strStarts x "-"
  let x := if strStarts x "+" || strStarts x "-" then strDropL x 1 else x
  if allDigits x then some (if neg then -(digitsVal x.data : ℤ) else (digitsVal x.data : ℤ))
  else Option.none

/-- `10^e` for an integer exponent. -/
def qpow10 (e : ℤ) : ℚ :=
  if 0 ≤ e then qnat ((10 : Nat) ^ e.toNat) else Rat.divInt 1 ((10 : Nat) ^ (-e).toNat)

/-- CPython `float(s)` on a string: `none` when it raises `ValueError`
(modelled: optional sign, decimal mantissa with optional exponent, or the
`inf`/`infinity`/`nan` spellings; digit-group underscores are not modelled). -/
def pyFloatVal (s : String) : Option PyFloat :=
  let t := lowerStr (pyStrip s)
  let neg := strStarts t "-"
  let t := if strStarts t "+" || strStarts t "-" then strDropL t 1 else t
  if t = "inf" || t = "infinity" then some (if neg then PyFloat.ninf else PyFloat.inf)
  else if t = "nan" then some PyFloat.nan
  else
    match pySplit 'e' t with
    | [m] => (mantVal m).map (fun q => PyFloat.finite (if neg then qneg q else q))
    | [m, x] =>
      match mantVal m, expVal x with
      | some q, some e =>
        some (PyFloat.finite (qmul (if neg then qneg q else q) (qpow10 e)))
      | _, _ => Option.none
    | _ => Option.none

/-- Whether CPython `float(s)` succeeds on a string. -/
def pyFloatParses (s : String) : Bool := (pyFloatVal s).isSome

def pfLtZero : PyFloat → Bool
  | PyFloat.finite q => decide (q < 0)
  | PyFloat.ninf => true
  | _ => false

def pfGe360 : PyFloat → Bool
  | PyFloat.finite q => decide (q ≥ 360)
  | PyFloat.inf => true
  | _ => false

/-- Digit run with single underscores allowed between digits, as accepted by
CPython `int()` (`"1_2"` parses, `"_1"`, `"1_"`, `"1__2"` do not). -/
def digitsUnders : List Char → Bool
  | [] => false
  | c :: cs =>
    c.isDigit && go cs
where
  go : List Char → Bool
    | [] => true
    | '_' :: c :: cs => c.isDigit && go cs
    | '_' :: [] => false
    | c :: cs => c.isDigit && go cs

/-- Whether CPython `int(s)` succeeds on a string. -/
def pyIntParses (s : String) : Bool :=
  let t := pyStrip s
  let t := if strStarts t "+" || strStarts t "-" then strDropL t 1 else t
  digitsUnders t.data

/-- Python `v < c` against a number: numbers compare, NaN comparisons are
`False`, booleans compare as 0/1, strings and `None` raise `TypeError`. -/
def cmpLt (v : Value) (c : ℚ) : Except Exc Bool :=
  match v with
  | Value.num q => .ok (decide (q < c))
  | Value.nan => .ok false
  | Value.boolean b => .ok (decide ((if b then (1 : ℚ) else 0) < c))
  | Value.str _ => .error Exc.typeError
  | Value.null => .error Exc.typeError

/-- Python `v > c` against a number, same conventions as `cmpLt`. -/
def cmpGt (v : Value) (c : ℚ) : Except Exc Bool :=
  match v with
  | Value.num q => .ok (decide (q > c))
  | Value.nan => .ok false
  | Value.boolean b => .ok (decide ((if b then (1 : ℚ) else 0) > c))
  | Value.str _ => .error Exc.typeError
  | Value.null => .error Exc.typeError

/-- Result of one validator check: `.ok none` means the check passed,
`.ok (some msg)` means it failed producing the diagnostic `msg` (printed in
validation mode, raised as `ValueError msg` in commit mode), `.error e` means
an exception escaped the check uncaught in either mode. -/
abbrev Chk := Except Exc (Option String)

/-- Result of running a validator: `.ok log` is the list of printed
diagnostics (always empty in commit mode on success), `.error (log, e)` means
the run aborted with exception `e` after printing `log`. -/
abbrev VRes := Except (List String × Exc) (List String)

/-- Threads one check through the mode switch: in validation mode a failure
message is appended to the printed log and execution continues, in commit
mode it is raised as a `ValueError`; an uncaught exception aborts both modes. -/
def runChk (m : Bool) (acc : VRes) (c : Chk) : VRes :=
  match acc with
  | .error e => .error e
  | .ok log =>
    match c with
    | .error e => .error (log, e)
    | .ok Option.none => .ok log
    | .ok (some msg) => if m then .ok (log ++ [msg]) else .error (log, Exc.valueError msg)

/-- Threads a list of already-produced failure messages through the mode
switch (used for checks that cannot raise uncaught exceptions). -/
def foldMsgs (m : Bool) (acc : VRes) (msgs : List String) : VRes :=
  msgs.foldl (fun a s =>
    match a with
    | .error e => .error e
    | .ok log => if m then .ok (log ++ [s]) else .error (log, Exc.valueError s)) acc

/-- The failure messages a check contributes when it does not crash. -/
def chkToMsgs (c : Chk) : List String :=
  match c with
  | .ok (some msg) => [msg]
  | _ => []

/- ------------------------------------------------------------------ -/
/- Field Mapper: the per-kind `DataFrame.rename` tables.               -/
/- ------------------------------------------------------------------ -/

/-- The site-sheet rename table of `create_site_gdf` (spreadsheet column
label to canonical field name), transcribed from the source. -/
def siteRenameTable : List (String × String) :=
  [("Short Site ID", "short_site_identifier"),
   ("Country", "country"),
   ("Site Name", "sitename"),
   ("Province / state / region", "province_state_region"),
   ("Primary Target Type ID", "primary_target_type_identifier"),
   ("Target Types", "target_types"),
   ("Primary Sensor", "primary_sensor"),
   ("Willing to consider special requests", "special_requests"),
   ("Responsible Organization", "responsible_organization"),
   ("Website", "website"),
   ("Active from  (YYYY-MM-DD)", "active_from"),
   ("Active from (YYYY-MM-DD)", "active_from"),
   ("Active until (YYYY-MM-DD or \"-\")", "active_until"),
   ("POC Name", "poc_name"),
   ("POC email", "poc_mail"),
   ("Additional POC Name", "poc2_name"),
   ("Additional POC email", "poc2_mail"),
   ("Centroid of the site (latitude and longitude in decima deg)", "centroid"),
   ("Boundaries", "boundaries"),
   ("Planned maintenance schedule", "maintenance_schedule"),
   ("Characteristics", "characteristics")]

/-- The artificial-target rename table of `ingest_art_targets`, transcribed
from the source. -/
def artTargetRenameTable : List (String × String) :=
  [("Unique Target ID", "unique_target_id"),
   ("Short Site ID", "short_site_identifier"),
   ("Site Name", "sitename"),
   ("Sub-site", "subsite"),
   ("Internal ID", "internal_id"),
   ("Short Target ID", "short_target_id"),
   ("Target Type ID", "target_type_id"),
   ("Target description", "target_description"),
   ("Approximage Latitude\n(decimal deg, WGS84)", "apprx_latitude"),
   ("Approximate Latitude\n(decimal deg, WGS84)", "apprx_latitude"),
   ("Approximate Longitude\n(decimal deg WGS84)", "apprx_longitude"),
   ("Approximate Longitude\n(decimal deg, WGS84)", "apprx_longitude"),
   ("Approximate elevation\n(meters, WGS84)", "apprx_elevation"),
   ("Approximate Azimuth angle\n(decimal deg)", "apprx_azimuth"),
   ("Approximate Boresight angle\n(decimal deg)", "apprx_boresight"),
   ("Primary direction", "primary_direction"),
   ("Side length (m)", "side_length"),
   ("Photo link", "photo_link"),
   ("Operational", "operational"),
   ("Manufacturer", "manufacturer"),
   ("Purpose of target", "purpose"),
   ("Reference RCS (dBm2)", "rcs"),
   ("Reference RCS measurement sensor", "rcs_sensor"),
   ("Reference RCS measurement expected accuracy (dB)", "rcs_accuracy"),
   ("Reference RCS measurement boresite angle (decimal deg)", "rcs_angle"),
   ("Reference RCS measurement wavelength (m)", "rcs_wavelength"),
   ("Reference RCS measurement bandwidth (Hz)", "rcs_bandwidth"),
   ("RCS accuracy determination method", "rcs_method"),
   ("RCS angle dependency availablity", "rcs_angle_dependency"),
   ("Composition", "composition"),
   ("Characterization of reflector ", "characterization"),
   ("Characterization of reflector", "characterization")]

/-- `DataFrame.rename(columns=tbl, errors="ignore")` on a row: every column
label found in the table is replaced by its canonical name, all other labels
are kept unchanged; cell values are untouched. -/
def renameRow (tbl : List (String × String)) (row : List (String × Value)) :
    List (String × Value) :=
  row.map (fun p => ((List.lookup p.1 tbl).getD p.1, p.2))

/- ------------------------------------------------------------------ -/
/- Ingestion tails: the length-guarded insert_into_collection calls.  -/
/- ------------------------------------------------------------------ -/

def SITES_COLLECTION : String := "calibration_sites"
def TARGETS_COLLECTION : String := "calibration_targets"
def NAT_TARGETS_COLLECTION : String := "calibration_nat_targets"
def SURVEYS_COLLECTION : String := "calibration_surveys"
def NAT_SURVEYS_COLLECTION : String := "calibration_nat_surveys"

/-- A generic assembled record row (canonical field name to cell value). -/
abbrev RecRow := List (String × Value)

/-- `do_site_ingestion`: insert the assembled site records only when there is
at least one, returning the list of short site identifiers; otherwise no
database call happens and the empty list is returned.  The first component
lists the `insert_into_collection` calls as (collection, record count). -/
def do_site_ingestion (gdf : List RecRow) : List (String × Nat) × List Value :=
  if gdf.length > 0 then
    ([(SITES_COLLECTION, gdf.length)],
     gdf.map (fun r => (List.lookup "short_site_identifier" r).getD Value.nan))
  else ([], [])

/-- Tail of `ingest_nat_targets`: the length-guarded insert. -/
def ingest_nat_targets_tail (gdf : List RecRow) : List (String × Nat) :=
  if gdf.length > 0 then [(NAT_TARGETS_COLLECTION, gdf.length)] else []

/-- Tail of `ingest_art_targets`: the length-guarded insert of the merged
target/unavailability records. -/
def ingest_art_targets_tail (gdf : List RecRow) : List (String × Nat) :=
  if gdf.length > 0 then [(TARGETS_COLLECTION, gdf.length)] else []

/-- Tail of `ingest_nat_surveys`: the length-guarded insert. -/
def ingest_nat_surveys_tail (gdf : List RecRow) : List (String × Nat) :=
  if gdf.length > 0 then [(NAT_SURVEYS_COLLECTION, gdf.length)] else []

/-- Tail of `ingest_art_surveys`: the length-guarded insert. -/
def ingest_art_surveys_tail (gdf : List RecRow) : List (String × Nat) :=
  if gdf.length > 0 then [(SURVEYS_COLLECTION, gdf.length)] else []

/- ------------------------------------------------------------------ -/
/- The regex of compute_centroid_from_boundaries.                     -/
/- ------------------------------------------------------------------ -/

/-- All remainders after consuming zero or more characters satisfying `p`. -/
def starRem (p : Char → Bool) : List Char → List (List Char)
  | [] => [[]]
  | c :: cs => (c :: cs) :: (if p c then starRem p cs else [])

/-- All remainders after consuming one or more characters satisfying `p`. -/
def plusRem (p : Char → Bool) (l : List Char) : List (List Char) :=
  match l with
  | [] => []
  | c :: cs => if p c then starRem p cs else []

/-- Remainders after an optional leading `-`. -/
def optDash : List Char → List (List Char)
  | '-' :: cs => ('-' :: cs) :: [cs]
  | l => [l]

/-- Remainders after consuming exactly one arbitrary character (the
unescaped `.` of the pattern). -/
def anyChar : List Char → List (List Char)
  | [] => []
  | _ :: cs => [cs]

/-- Remainders after matching `-?\d+.\d*` (the number part of the centroid
pair pattern; note the unescaped dot consumes one arbitrary character). -/
def numPart (l : List Char) : List (List Char) :=
  (optDash l).flatMap (fun l1 =>
    (plusRem Char.isDigit l1).flatMap (fun l2 =>
      (anyChar l2).flatMap (starRem Char.isDigit)))

/-- Whether `-?\d+.\d*\s*,\s*-?\d+.\d*\s*` matches a prefix of `l`. -/
def pairAt (l : List Char) : Bool :=
  ((numPart l).flatMap (starRem isWs)).any (fun l2 =>
    match l2 with
    | ',' :: cs => !((starRem isWs cs).flatMap numPart).isEmpty
    | _ => false)

/-- Python `re.search(r"\s*-?\d+.\d*\s*,\s*-?\d+.\d*\s*", s)` as a Boolean:
the pattern matches starting at some position of `s` (the leading `\s*`
is vacuous for search). -/
def regexSearchPair (s : String) : Bool :=
  s.data.tails.any pairAt

/- ------------------------------------------------------------------ -/
/- WKT parsing, polygon centroid, and point serialization (the slice  -/
/- of the external geodesy library the Value Normalizer relies on).   -/
/- ------------------------------------------------------------------ -/

def parseDigits (l : List Char) : Option Nat :=
  if l = [] ∨ ¬ l.all Char.isDigit then Option.none
  else some (l.foldl (fun a c => a * 10 + (c.toNat - 48)) 0)

/-- Parse a plain decimal number (`"-1.25"`, `"0.5"`, `"3"`) to a rational. -/
def parseDec (s : String) : Option ℚ :=
  let t := pyStrip s
  let neg := strStarts t "-"
  let t := if strStarts t "-" then strDropL t 1 else t
  match pySplit '.' t with
  | [a] => (parseDigits a.data).map (fun n =>
      if neg then Rat.divInt (-(Int.ofNat n)) 1 else qnat n)
  | [a, b] =>
    match parseDigits a.data, parseDigits b.data with
    | some ia, some fb =>
      some (Rat.divInt
        ((if neg then (-1 : ℤ) else 1) * (ia * 10 ^ b.data.length + fb))
        ((10 : Nat) ^ b.data.length))
    | _, _ => Option.none
  | _ => Option.none

/-- Parse a hole-free `POLYGON((x y, x y, ...))` WKT string into its ring of
vertices (modelling `shapely.from_wkt` on the polygons the sites sheet
carries). -/
def parsePolygonWkt (s : String) : Option (List (ℚ × ℚ)) :=
  let t := pyStrip s
  if strStarts (upperStr t) "POLYGON" then
    let rest := pyStrip (strDropL t 7)
    if strStarts rest "((" && strEnds rest "))" then
      let inner := strDropR (strDropL rest 2) 2
      if strHasChar inner ')' then Option.none
      else
        (pySplit ',' inner).foldr (fun p acc =>
          match acc with
          | Option.none => Option.none
          | some tl =>
            match (pySplit ' ' (pyStrip p)).filter (fun c => c ≠ "") with
            | [xs, ys] =>
              match parseDec xs, parseDec ys with
              | some x, some y => some ((x, y) :: tl)
              | _, _ => Option.none
            | _ => Option.none) (some [])
    else Option.none
  else Option.none

/-- Area-weighted centroid of a closed polygon ring (last vertex equal to the
first, as WKT requires); `none` on a degenerate zero-area ring.  This is the
standard shoelace centroid the geodesy library computes. -/
def polyCentroid (pts : List (ℚ × ℚ)) : Option (ℚ × ℚ) :=
  let segs := pts.zip pts.tail
  let cross := fun (s : (ℚ × ℚ) × (ℚ × ℚ)) => qsub (qmul s.1.1 s.2.2) (qmul s.2.1 s.1.2)
  let a2 := qsum (segs.map cross)
  if a2 = 0 then Option.none
  else
    some (qdivQ (qsum (segs.map (fun s => qmul (qadd s.1.1 s.2.1) (cross s)))) (qmul (qnat 3) a2),
          qdivQ (qsum (segs.map (fun s => qmul (qadd s.1.2 s.2.2) (cross s)))) (qmul (qnat 3) a2))

/-- Canonical WKT rendering of a point, `POINT(x y)`. -/
def pointWkt (c : ℚ × ℚ) : String :=
  "POINT(" ++ decFormat c.1 ++ " " ++ decFormat c.2 ++ ")"

/- ------------------------------------------------------------------ -/
/- Sites: create_site_gdf / validate_sites / ingest_sites.            -/
/- ------------------------------------------------------------------ -/

/-- A site row after the rename to canonical field names (including the
`Unique Site ID` placeholder column, which is used for row filtering and
then dropped). -/
structure SiteRow where
  unique_site_id : Value
  short_site_identifier : Value
  sitename : Value
  country : Value
  province_state_region : Value
  primary_target_type_identifier : Value
  target_types : Value
  primary_sensor : Value
  special_requests : Value
  responsible_organization : Value
  website : Value
  active_from : Value
  active_until : Value
  poc_name : Value
  poc_mail : Value
  poc2_name : Value
  poc2_mail : Value
  centroid : Value
  boundaries : Value
  maintenance_schedule : Value
  characteristics : Value
deriving DecidableEq, Repr

def Value.isStr : Value → Bool
  | Value.str _ => true
  | _ => false

def isNa (v : Value) : Bool := v == Value.nan || v == Value.null

/-- The mandatory site fields, in the order `validate_sites` iterates them. -/
def siteMandatoryFields : List (String × (SiteRow → Value)) :=
  [("short_site_identifier", SiteRow.short_site_identifier),
   ("sitename", SiteRow.sitename),
   ("country", SiteRow.country),
   ("primary_target_type_identifier", SiteRow.primary_target_type_identifier),
   ("target_types", SiteRow.target_types),
   ("primary_sensor", SiteRow.primary_sensor),
   ("special_requests", SiteRow.special_requests),
   ("responsible_organization", SiteRow.responsible_organization),
   ("active_from", SiteRow.active_from),
   ("active_until", SiteRow.active_until),
   ("poc_name", SiteRow.poc_name),
   ("poc_mail", SiteRow.poc_mail),
   ("boundaries", SiteRow.boundaries),
   ("maintenance_schedule", SiteRow.maintenance_schedule),
   ("characteristics", SiteRow.characteristics)]

def siteMissingMsg (i : Nat) (col : String) : String :=
  "site, row " ++ toString (i + 6) ++ ": missing entry for mandatory field '" ++
    col ++ "'. Please fill in all mandatory fields, or remove the entire row."

def siteActiveFromMsg (i : Nat) : String :=
  "site, row " ++ toString (i + 6) ++ ": invalid entry for field 'active_from'. " ++
    "Please provide a date or date and time expressed in YYYY-MM-dd format (UTC)."

def siteActiveUntilMsg (i : Nat) : String :=
  "site, row " ++ toString (i + 6) ++ ": invalid entry for field 'active_until'. " ++
    "Please provide a date or date and time expressed in YYYY-MM-dd format (UTC), or provide '-'. "

def siteWebsiteMsg (i : Nat) : String :=
  "site, row " ++ toString (i + 6) ++
    ": invalid entry for field 'website'. Please provide an accessible website."

def siteCentroidMsg (i : Nat) : String :=
  "site, row " ++ toString (i + 6) ++ ": Invalid value for field 'centroid'." ++
    "Please either provide a position given by comma-separated lat and lon values " ++
    "(e.g. 36.578, 120.356), or provide the position as WKT " ++
    "(e.g. POINT(120.356 36.578)), or leave the field empty, so the centroid is " ++
    "computed from the boundaries."

/-- The missing-mandatory-field messages of one site row, in field order. -/
def siteMandMsgs (i : Nat) (r : SiteRow) : List String :=
  (siteMandatoryFields.filter (fun p => pyStr (p.2 r) == "nan")).map
    (fun p => siteMissingMsg i p.1)

/-- The `active_from` date check: `dateutil.parser.parse` succeeds iff the
external predicate `pd` holds; calling it on a non-string raises an uncaught
`TypeError`. -/
def chkActiveFrom (pd : String → Bool) (i : Nat) (r : SiteRow) : Chk :=
  match r.active_from with
  | Value.str s => .ok (if pd s then Option.none else some (siteActiveFromMsg i))
  | _ => .error Exc.typeError

/-- The `active_until` date check; the literal `"-"` (or `"'-'"`) is accepted
as the open-ended marker and skips date parsing. -/
def chkActiveUntil (pd : String → Bool) (i : Nat) (r : SiteRow) : Chk :=
  match r.active_until with
  | Value.str s =>
    if s = "-" ∨ s = "'-'" then .ok Option.none
    else .ok (if pd s then Option.none else some (siteActiveUntilMsg i))
  | _ => .error Exc.typeError

/-- Whether the website liveness check fails, given the HTTP status oracle
`st`: with a scheme, one request; without one, the `http://` form is fetched
and — by Python `or` short-circuiting — the `https://` form only if the first
did not error; the check fails as soon as either returns a status ≥ 400. -/
def websiteFails (st : String → Nat) (w : String) : Bool :=
  if strStarts w "http" then decide (st w ≥ 400)
  else decide (st ("http://" ++ w) ≥ 400) || decide (st ("https://" ++ w) ≥ 400)

/-- The URLs actually fetched by the liveness check, in order (the `https://`
form is skipped when the `http://` form already returned an error status). -/
def websiteRequests (st : String → Nat) (w : String) : List String :=
  if strStarts w "http" then [w]
  else if st ("http://" ++ w) ≥ 400 then ["http://" ++ w]
  else ["http://" ++ w, "https://" ++ w]

/-- The website liveness check of `validate_sites`: skipped for falsy or NaN
cells; a non-string truthy cell would raise `AttributeError` on
`.startswith`. -/
def chkWebsite (st : String → Nat) (i : Nat) (w : Value) : Chk :=
  if pyTruthy w = false then .ok Option.none
  else if pyStr w = "nan" then .ok Option.none
  else
    match w with
    | Value.str s =>
      .ok (if websiteFails st s then some (siteWebsiteMsg i) else Option.none)
    | _ => .error Exc.attributeError

/-- All failure messages of one site row in check order (mandatory fields,
`active_from`, `active_until`, website). -/
def siteRowMsgs (pd : String → Bool) (st : String → Nat) (i : Nat) (r : SiteRow) :
    List String :=
  siteMandMsgs i r ++ chkToMsgs (chkActiveFrom pd i r) ++
    chkToMsgs (chkActiveUntil pd i r) ++ chkToMsgs (chkWebsite st i r.website)

/-- One iteration of the `validate_sites` row loop. -/
def siteRowRun (pd : String → Bool) (st : String → Nat) (m : Bool)
    (acc : VRes) (ir : Nat × SiteRow) : VRes :=
  runChk m
    (runChk m
      (runChk m (foldMsgs m acc (siteMandMsgs ir.1 ir.2)) (chkActiveFrom pd ir.1 ir.2))
      (chkActiveUntil pd ir.1 ir.2))
    (chkWebsite st ir.1 ir.2.website)

/-- `validate_sites` over the (index, row) pairs of the filtered sheet. -/
def validate_sites (pd : String → Bool) (st : String → Nat) (m : Bool)
    (irows : List (Nat × SiteRow)) : VRes :=
  irows.foldl (siteRowRun pd st m) (.ok [])

/-- Well-formedness of a site row as `pd.read_excel` delivers it: the two
date columns are forced to strings by the sheet converters, and the website
cell is a string or a blank. -/
def wfSiteRow (r : SiteRow) : Bool :=
  r.active_from.isStr && r.active_until.isStr &&
    (r.website.isStr || r.website == Value.nan || r.website == Value.null)

/-- The post-validation normalization of `create_site_gdf`:
`replace(nan, "")` followed by `replace("-", None)`, applied cell-wise. -/
def normCellSite (v : Value) : Value :=
  let v := if v = Value.nan then Value.str "" else v
  if v = Value.str "-" then Value.null else v

def normalizeSiteRow (r : SiteRow) : SiteRow where
  unique_site_id := normCellSite r.unique_site_id
  short_site_identifier := normCellSite r.short_site_identifier
  sitename := normCellSite r.sitename
  country := normCellSite r.country
  province_state_region := normCellSite r.province_state_region
  primary_target_type_identifier := normCellSite r.primary_target_type_identifier
  target_types := normCellSite r.target_types
  primary_sensor := normCellSite r.primary_sensor
  special_requests := normCellSite r.special_requests
  responsible_organization := normCellSite r.responsible_organization
  website := normCellSite r.website
  active_from := normCellSite r.active_from
  active_until := normCellSite r.active_until
  poc_name := normCellSite r.poc_name
  poc_mail := normCellSite r.poc_mail
  poc2_name := normCellSite r.poc2_name
  poc2_mail := normCellSite r.poc2_mail
  centroid := normCellSite r.centroid
  boundaries := normCellSite r.boundaries
  maintenance_schedule := normCellSite r.maintenance_schedule
  characteristics := normCellSite r.characteristics

/-- The placeholder filter of `create_site_gdf`: rows whose `Unique Site ID`
is `"-"` or blank are dropped; pandas keeps the original sheet index, so rows
are enumerated before filtering. -/
def keptRows (rows : List SiteRow) : List (Nat × SiteRow) :=
  rows.enum.filter (fun ir =>
    !(ir.2.unique_site_id == Value.str "-") && !(isNa ir.2.unique_site_id))

/-- `compute_centroid_from_boundaries` on one row: a blank centroid (empty
string or NaN) is derived from the boundary polygon; otherwise a value
containing a comma-separated decimal pair is rewritten to a lon-lat WKT
point; otherwise a value beginning with `POINT` is kept; anything else is an
invalid-centroid failure (printed in validation mode — the Python function
then returns `None`, modelled by the `Option.none` row — raised in commit
mode). -/
def compute_centroid_from_boundaries (m : Bool) (i : Nat) (r : SiteRow) :
    Except (List String × Exc) (List String × Option SiteRow) :=
  if r.centroid = Value.str "" ∨ r.centroid = Value.nan then
    match r.boundaries with
    | Value.str w =>
      match parsePolygonWkt w with
      | some poly =>
        match polyCentroid poly with
        | some c => .ok ([], some { r with centroid := Value.str (pointWkt c) })
        | Option.none => .error ([], Exc.typeError)
      | Option.none => .error ([], Exc.typeError)
    | _ => .error ([], Exc.typeError)
  else if regexSearchPair (pyStr r.centroid) then
    let parts := pySplit ',' (pyStr r.centroid)
    let lat := pyStrip (parts.headD "")
    let lon := pyStrip ((parts.drop 1).headD "")
    .ok ([], some { r with centroid := Value.str ("POINT(" ++ lon ++ " " ++ lat ++ ")") })
  else if strStarts (upperStr (pyStr r.centroid)) "POINT" then
    .ok ([], some r)
  else if m then .ok ([siteCentroidMsg i], Option.none)
  else .error ([], Exc.valueError (siteCentroidMsg i))

/-- The `sites_df.apply(compute_centroid_from_boundaries, axis=1)` pass of
the commit branch of `create_site_gdf`. -/
def centroidPass (l : List (Nat × SiteRow)) :
    Except (List String × Exc) (List (Nat × SiteRow)) :=
  l.mapM (fun ir =>
    match compute_centroid_from_boundaries false ir.1 ir.2 with
    | .error e => .error e
    | .ok (_, some r) => .ok (ir.1, r)
    | .ok (_, Option.none) => .error ([], Exc.typeError))

/-- `create_site_gdf`: filter placeholder rows, validate, and — in validation
mode — return `None` (`Option.none` here); in commit mode normalize
sentinels and derive centroids.  The result carries the printed diagnostics. -/
def create_site_gdf (pd : String → Bool) (st : String → Nat) (m : Bool)
    (rows : List SiteRow) :
    Except (List String × Exc) (List String × Option (List (Nat × SiteRow))) :=
  let irows := keptRows rows
  match validate_sites pd st m irows with
  | .error e => .error e
  | .ok log =>
    if m then .ok (log, Option.none)
    else
      match centroidPass (irows.map (fun ir => (ir.1, normalizeSiteRow ir.2))) with
      | .error e => .error e
      | .ok rs => .ok (log, some rs)

/-- Outcome of a completed `ingest_sites` run: printed diagnostics, the
`insert_into_collection` calls made, and the returned site identifiers. -/
structure IngestOut where
  printed : List String
  dbCalls : List (String × Nat)
  siteIds : List Value
deriving DecidableEq, Repr

/-- `ingest_sites`: build the site GeoDataFrame and hand it to
`do_site_ingestion`; a validation-mode run returns the empty identifier list
without touching the database. -/
def ingest_sites (pd : String → Bool) (st : String → Nat) (m : Bool)
    (rows : List SiteRow) : Except (List String × Exc) IngestOut :=
  match create_site_gdf pd st m rows with
  | .error e => .error e
  | .ok (log, Option.none) => .ok ⟨log, [], []⟩
  | .ok (log, some rs) =>
    let gdf := rs.map (fun ir =>
      [("short_site_identifier", ir.2.short_site_identifier)])
    let t := do_site_ingestion gdf
    .ok ⟨log, t.1, t.2⟩

/- ------------------------------------------------------------------ -/
/- Natural targets: ingest_nat_targets / validate_nat_targets.        -/
/- ------------------------------------------------------------------ -/

/-- A natural-target row after the rename to canonical field names. -/
structure NatRow where
  unique_target_id : Value
  short_site_identifier : Value
  sitename : Value
  subsite : Value
  internal_id : Value
  short_target_id : Value
  target_type_id : Value
  target_description : Value
  geometry : Value
  coverage : Value
  mask_polygon : Value
  period_start : Value
  period_stop : Value
deriving DecidableEq, Repr

/-- The cell-wise effect of `ingest_nat_targets`'s two replacements, applied
in source order: `replace(math.nan, None)` then `replace("-", None)`. -/
def natReplaceCell (v : Value) : Value :=
  let v := if v = Value.nan then Value.null else v
  if v = Value.str "-" then Value.null else v

def natPreprocessRow (r : NatRow) : NatRow where
  unique_target_id := natReplaceCell r.unique_target_id
  short_site_identifier := natReplaceCell r.short_site_identifier
  sitename := natReplaceCell r.sitename
  subsite := natReplaceCell r.subsite
  internal_id := natReplaceCell r.internal_id
  short_target_id := natReplaceCell r.short_target_id
  target_type_id := natReplaceCell r.target_type_id
  target_description := natReplaceCell r.target_description
  geometry := natReplaceCell r.geometry
  coverage := natReplaceCell r.coverage
  mask_polygon := natReplaceCell r.mask_polygon
  period_start := natReplaceCell r.period_start
  period_stop := natReplaceCell r.period_stop

/-- The rows `validate_nat_targets` receives from `ingest_nat_targets`: the
`"--"` placeholder rows are dropped, then NaN and `"-"` are replaced by null
— the replacements run BEFORE validation in this ingester, in contrast to
the sites path where they run after. -/
def ingest_nat_targets_validation_input (rows : List NatRow) : List (Nat × NatRow) :=
  (rows.enum.filter (fun ir => !(ir.2.unique_target_id == Value.str "--"))).map
    (fun ir => (ir.1, natPreprocessRow ir.2))

def natMandatoryFields : List (String × (NatRow → Value)) :=
  [("unique_target_id", NatRow.unique_target_id),
   ("short_site_identifier", NatRow.short_site_identifier),
   ("sitename", NatRow.sitename),
   ("short_target_id", NatRow.short_target_id),
   ("target_type_id", NatRow.target_type_id),
   ("geometry", NatRow.geometry),
   ("period_start", NatRow.period_start),
   ("period_stop", NatRow.period_stop)]

def natMissingMsg (i : Nat) (col : String) : String :=
  "dt, row " ++ toString (i + 6) ++ ": missing entry for mandatory field '" ++
    col ++ "'. Please fill in all mandatory fields, or remove the entire row."

def natMandMsgs (i : Nat) (r : NatRow) : List String :=
  (natMandatoryFields.filter (fun p => pyStr (p.2 r) == "nan")).map
    (fun p => natMissingMsg i p.1)

/-- `validate_nat_targets`: the mandatory-field loop under the mode switch. -/
def validate_nat_targets (m : Bool) (irows : List (Nat × NatRow)) : VRes :=
  irows.foldl (fun acc ir => foldMsgs m acc (natMandMsgs ir.1 ir.2)) (.ok [])

/- ------------------------------------------------------------------ -/
/- Artificial targets: validate_art_targets.                          -/
/- ------------------------------------------------------------------ -/

/-- An artificial-target row after the rename to canonical field names. -/
structure ArtRow where
  unique_target_id : Value
  short_site_identifier : Value
  sitename : Value
  short_target_id : Value
  target_type_id : Value
  apprx_latitude : Value
  apprx_longitude : Value
  apprx_elevation : Value
  apprx_azimuth : Value
  apprx_boresight : Value
  primary_direction : Value
  side_length : Value
  operational : Value
  purpose : Value
  rcs : Value
  rcs_accuracy : Value
  rcs_angle : Value
  rcs_wavelength : Value
  rcs_bandwidth : Value
deriving DecidableEq, Repr

def artMandatoryFields : List (String × (ArtRow → Value)) :=
  [("unique_target_id", ArtRow.unique_target_id),
   ("short_site_identifier", ArtRow.short_site_identifier),
   ("short_target_id", ArtRow.short_target_id),
   ("target_type_id", ArtRow.target_type_id),
   ("apprx_latitude", ArtRow.apprx_latitude),
   ("apprx_longitude", ArtRow.apprx_longitude),
   ("apprx_elevation", ArtRow.apprx_elevation),
   ("apprx_azimuth", ArtRow.apprx_azimuth),
   ("apprx_boresight", ArtRow.apprx_boresight),
   ("primary_direction", ArtRow.primary_direction),
   ("side_length", ArtRow.side_length),
   ("operational", ArtRow.operational),
   ("purpose", ArtRow.purpose)]

/-- The missing-mandatory-field message of `validate_art_targets`.  In the
source the f-string is closed after `"mandatory field "`; the continuation
strings naming the field are stranded as standalone expression statements,
so the message built at runtime ends here and never names the field. -/
def artMissingMsg (i : Nat) : String :=
  "cr, row " ++ toString (i + 6) ++ ": missing entry for mandatory field "

/-- The invalid-entry message shared (because of the same f-string
truncation) by the latitude/longitude/elevation parse and range checks of
`validate_art_targets`. -/
def artInvalidMsg (i : Nat) : String :=
  "cr, row " ++ toString (i + 6) ++ ": invalid entry for mandatory field "

def artSideLengthMsg (i : Nat) : String :=
  "cr, row " ++ toString (i + 6) ++ ": invalid entry for mandatory field " ++
    "'Side Length'. Please enter a valid floating point number > 0."

def artRcsMsg (i : Nat) : String :=
  "cr, row " ++ toString (i + 6) ++ ": invalid entry for field " ++
    "'RCS'. Please enter a valid floating point number."

def artRcsAccuracyMsg (i : Nat) : String :=
  "cr, row " ++ toString (i + 6) ++ ": invalid entry for field " ++
    "'Reference RCS measurement expected accuracy (dB)'. " ++
    "Please enter a valid floating point number."

def artRcsAngleMsg (i : Nat) : String :=
  "cr, row " ++ toString (i + 6) ++ ": invalid entry for field " ++
    "'Reference RCS measurement boresite angle (decimal deg)'. " ++
    "Please enter a valid floating point number."

def artRcsWavelengthMsg (i : Nat) : String :=
  "cr, row " ++ toString (i + 6) ++ ": invalid entry for field " ++
    "'Reference RCS measurement wavelength (m)'. Please enter a " ++
    "valid floating point number > 0."

def artRcsBandwidthMsg (i : Nat) : String :=
  "cr, row " ++ toString (i + 6) ++ ": invalid entry for field " ++
    "'Reference RCS measurement bandwidth (Hz)'. Please enter" ++
    " a valid floating point number > 0."

/-- `try: float(v) except ValueError: <msg>` — `float(None)` raises an
uncaught `TypeError`, an unparseable string a caught `ValueError`. -/
def tryFloatVE (v : Value) (msg : String) : Chk :=
  match v with
  | Value.null => .error Exc.typeError
  | Value.str s => if pyFloatParses s then .ok Option.none else .ok (some msg)
  | _ => .ok Option.none

/-- `if v < lo or v > hi: <msg>` on the raw cell value, with Python's
comparison semantics (NaN comparisons false, string/None comparisons raise). -/
def rangeChk (v : Value) (lo hi : ℚ) (msg : String) : Chk :=
  match cmpLt v lo with
  | .error e => .error e
  | .ok ltv =>
    if ltv then .ok (some msg)
    else
      match cmpGt v hi with
      | .error e => .error e
      | .ok gtv => .ok (if gtv then some msg else Option.none)

/-- The side-length check: `float(v)` then `if v <= 0: raise ValueError`,
both inside one `except ValueError`.  A parseable string passes `float` but
then crashes the raw `<=` comparison with an uncaught `TypeError`. -/
def sideLenChk (v : Value) (msg : String) : Chk :=
  match v with
  | Value.null => .error Exc.typeError
  | Value.str s => if pyFloatParses s then .error Exc.typeError else .ok (some msg)
  | Value.num q => .ok (if q ≤ 0 then some msg else Option.none)
  | Value.nan => .ok Option.none
  | Value.boolean b => .ok (if (if b then (1 : ℚ) else 0) ≤ 0 then some msg else Option.none)

/-- `if v: float(v)` under `except ValueError` (the optional RCS numbers). -/
def rcsFloatChk (v : Value) (msg : String) : Chk :=
  if pyTruthy v = false then .ok Option.none else tryFloatVE v msg

/-- `if v and v <= 0: raise ValueError` under `except ValueError` (the
optional strictly-positive RCS wavelength/bandwidth); a truthy string crashes
the raw `<=` comparison with an uncaught `TypeError`. -/
def positiveIfGivenChk (v : Value) (msg : String) : Chk :=
  if pyTruthy v = false then .ok Option.none
  else
    match v with
    | Value.str _ => .error Exc.typeError
    | Value.num q => .ok (if q ≤ 0 then some msg else Option.none)
    | Value.boolean b => .ok (if (if b then (1 : ℚ) else 0) ≤ 0 then some msg else Option.none)
    | _ => .ok Option.none

/-- The checks of one `validate_art_targets` row, in source order. -/
def artRowChecks (i : Nat) (r : ArtRow) : List Chk :=
  (artMandatoryFields.map (fun p =>
    Except.ok (if pyStr (p.2 r) == "nan" then some (artMissingMsg i) else Option.none)))
  ++ [tryFloatVE r.apprx_latitude (artInvalidMsg i),
      rangeChk r.apprx_latitude (-90) 90 (artInvalidMsg i),
      tryFloatVE r.apprx_longitude (artInvalidMsg i),
      rangeChk r.apprx_longitude (-180) 180 (artInvalidMsg i),
      tryFloatVE r.apprx_elevation (artInvalidMsg i),
      sideLenChk r.side_length (artSideLengthMsg i),
      rcsFloatChk r.rcs (artRcsMsg i),
      rcsFloatChk r.rcs_accuracy (artRcsAccuracyMsg i),
      rcsFloatChk r.rcs_angle (artRcsAngleMsg i),
      positiveIfGivenChk r.rcs_wavelength (artRcsWavelengthMsg i),
      positiveIfGivenChk r.rcs_bandwidth (artRcsBandwidthMsg i)]

/-- `validate_art_targets` over the (index, row) pairs of the sheet. -/
def validate_art_targets (m : Bool) (irows : List (Nat × ArtRow)) : VRes :=
  irows.foldl (fun acc ir => (artRowChecks ir.1 ir.2).foldl (runChk m) acc) (.ok [])

/- ------------------------------------------------------------------ -/
/- Artificial-survey field validators.                                -/
/- ------------------------------------------------------------------ -/

def surveyLatMsg (i : Nat) (v : Value) : String :=
  "surveys, row " ++ toString (i + 6) ++ ": invalid entry '" ++ pyStr v ++
    "' for mandatory field 'Latitude (decimal deg)'. Please enter a " ++
    "valid floating point number > -90 and < 90."

def surveyLonMsg (i : Nat) (v : Value) : String :=
  "surveys, row " ++ toString (i + 6) ++ ": invalid entry '" ++ pyStr v ++
    "' for mandatory field 'Longitude (decimal deg)'. Please enter a " ++
    "valid floating point number > -180 and < 180."

def surveyAzimuthMsg (i : Nat) (v : Value) : String :=
  "surveys, row " ++ toString (i + 6) ++ ": invalid entry '" ++ pyStr v ++
    "' for mandatory field 'Azimuth angle (decimal deg)'. Please enter a " ++
    "valid floating point number >= 0 and < 360."

def surveyTiltMsg (i : Nat) (v : Value) : String :=
  "surveys, row " ++ toString (i + 6) ++ ": invalid entry '" ++ pyStr v ++
    "' for mandatory field 'Tilt angle (decimal deg)'. Please enter a " ++
    "valid floating point number >= 0 and < 360."

def surveyBoresightMsg (i : Nat) (v : Value) : String :=
  "surveys, row " ++ toString (i + 6) ++ ": invalid entry '" ++ pyStr v ++
    "' for mandatory field 'Boresight angle (decimal deg)'. Please enter a " ++
    "valid floating point number >= -360 and <= 360."

def surveyDurationMsg (i : Nat) : String :=
  "surveys, row " ++ toString (i + 6) ++ ": invalid entry for field " ++
    "'GNSS measurement duration (hh:mm:ss)'. Please provide a time expressed " ++
    "in hh:mm:ss format."

/-- `validate_lat`: the bare range comparison on the raw cell. -/
def validate_lat (m : Bool) (i : Nat) (v : Value) : VRes :=
  runChk m (.ok []) (rangeChk v (-90) 90 (surveyLatMsg i v))

/-- `validate_lon`: the bare range comparison on the raw cell. -/
def validate_lon (m : Bool) (i : Nat) (v : Value) : VRes :=
  runChk m (.ok []) (rangeChk v (-180) 180 (surveyLonMsg i v))

/-- The azimuth check: `float(v)` under `except ValueError` (which prints and
returns in validation mode), then `float(v) < 0 or float(v) >= 360` on the
converted value, so numeric strings are compared by value. -/
def azimuthChk (v : Value) (msg : String) : Chk :=
  match v with
  | Value.null => .error Exc.typeError
  | Value.nan => .ok Option.none
  | Value.num q => .ok (if q < 0 ∨ q ≥ 360 then some msg else Option.none)
  | Value.boolean _ => .ok Option.none
  | Value.str s =>
    match pyFloatVal s with
    | Option.none => .ok (some msg)
    | some pf => .ok (if pfLtZero pf || pfGe360 pf then some msg else Option.none)

def validate_azimuth_angle (m : Bool) (i : Nat) (v : Value) : VRes :=
  runChk m (.ok []) (azimuthChk v (surveyAzimuthMsg i v))

/-- The tilt check: `float(v)` under `except ValueError`, then
`type(v) == str or v < 0 or v >= 360` — every string fails (parseable ones at
the type test, unparseable ones at the caught conversion). -/
def tiltChk (v : Value) (msg : String) : Chk :=
  match v with
  | Value.null => .error Exc.typeError
  | Value.nan => .ok Option.none
  | Value.num q => .ok (if q < 0 ∨ q ≥ 360 then some msg else Option.none)
  | Value.boolean _ => .ok Option.none
  | Value.str _ => .ok (some msg)

def validate_tilt (m : Bool) (i : Nat) (v : Value) : VRes :=
  runChk m (.ok []) (tiltChk v (surveyTiltMsg i v))

/-- The boresight check: `float(v)` under `except ValueError`, then the raw
comparisons `v < -360 or v > 360`; a parseable string passes the conversion
but crashes the raw comparison with an uncaught `TypeError`. -/
def boresightChk (v : Value) (msg : String) : Chk :=
  match v with
  | Value.null => .error Exc.typeError
  | Value.nan => .ok Option.none
  | Value.num q => .ok (if q < -360 ∨ q > 360 then some msg else Option.none)
  | Value.boolean _ => .ok Option.none
  | Value.str s => if pyFloatParses s then .error Exc.typeError else .ok (some msg)

def validate_boresight_angle (m : Bool) (i : Nat) (v : Value) : VRes :=
  runChk m (.ok []) (boresightChk v (surveyBoresightMsg i v))

/-- The duration check: `v.split(":")` must yield exactly three parts, each
accepted by `int()`; calling `.split` on a non-string raises an uncaught
`AttributeError`. -/
def durationChk (v : Value) (msg : String) : Chk :=
  match v with
  | Value.str s =>
    let parts := pySplit ':' s
    .ok (if parts.length = 3 && parts.all pyIntParses then Option.none else some msg)
  | _ => .error Exc.attributeError

def validate_duration (m : Bool) (i : Nat) (v : Value) : VRes :=
  runChk m (.ok []) (durationChk v (surveyDurationMsg i))

/- ------------------------------------------------------------------ -/
/- Unavailability ingestion: ingest_unavailabilities.                 -/
/- ------------------------------------------------------------------ -/

/-- The unavailability columns stored on a target record: the accumulated
start/end date lists and the list of submission-form references (null until
the first unavailability-only submission). -/
structure TargetRec where
  ustart : List String
  uend : List String
  uforms : Option (List String)
deriving DecidableEq, Repr

/-- One row of the unavailability sheet after the rename. -/
structure URow where
  target : String
  ustart : String
  uend : String
deriving DecidableEq, Repr

def insertSorted (x : String) : List String → List String
  | [] => [x]
  | y :: t => if strLtB x y then x :: y :: t else y :: insertSorted x t

def sortStrings : List String → List String
  | [] => []
  | x :: t => insertSorted x (sortStrings t)

/-- `groupby("unique_target_id", as_index=False).agg(list)`: one entry per
distinct target identifier, groups in sorted key order (pandas `sort=True`
default), the start/end values of each group in input order. -/
def dedupStrAux : List String → List String → List String
  | [], _ => []
  | x :: t, seen => if seen.contains x then dedupStrAux t seen else x :: dedupStrAux t (x :: seen)

/-- Distinct elements in first-occurrence order. -/
def dedupStr (l : List String) : List String := dedupStrAux l []

def groupUnav (rows : List URow) : List (String × List String × List String) :=
  (sortStrings (dedupStr (rows.map URow.target))).map (fun k =>
    (k, ((rows.filter (fun r => r.target = k)).map URow.ustart),
        ((rows.filter (fun r => r.target = k)).map URow.uend)))

/-- `ingest_unavailabilities`: for each grouped target, read the previously
stored lists and write back extended ones.  Faithful to the source, the
appended batch values are taken from row `[0]` of the grouped frame — the
first (alphabetically least) target's lists — for EVERY target in the batch;
only the query key `unique_target_id=eq.{tid}` uses the iterated row.  A
target with no previous record makes the `[0]` indexing of the query result
fail, modelled as `.error`. -/
def ingest_unavailabilities (db : List (String × TargetRec)) (formUrl : String)
    (rows : List URow) : Except String (List (String × TargetRec)) :=
  let gs := groupUnav rows
  match gs with
  | [] => .ok db
  | g0 :: _ =>
    gs.foldlM (fun d g =>
      match List.lookup g.1 d with
      | Option.none => .error ("no previous record for target " ++ g.1)
      | some prev =>
        let ns := if prev.ustart ≠ [] then prev.ustart ++ g0.2.1 else g0.2.1
        let ne := if prev.uend ≠ [] then prev.uend ++ g0.2.2 else g0.2.2
        let nf := match prev.uforms with
          | Option.none => [formUrl]
          | some l => l ++ [formUrl]
        .ok (d.map (fun p => if p.1 = g.1 then (p.1, TargetRec.mk ns ne (some nf)) else p)))
      db

/- ------------------------------------------------------------------ -/
/- Concrete inputs used to instantiate the theorems.                  -/
/- ------------------------------------------------------------------ -/

/-- Substring test on character lists (used to state what a failure message
does and does not mention). -/
def containsSub (needle hay : List Char) : Bool :=
  hay.tails.any (fun t => needle.isPrefixOf t)

/-- A date oracle accepting exactly one date string. -/
def datePd : String → Bool := fun s => s == "2020-01-01"

/-- A status oracle answering 200 for every URL. -/
def status200 : String → Nat := fun _ => 200

/-- A site row whose single defect is the missing mandatory `poc_name`
(blank centroid and a unit-square boundary polygon, open-ended
`active_until`). -/
def siteRowOneDefect : SiteRow where
  unique_site_id := Value.str "S001-CR"
  short_site_identifier := Value.str "S001"
  sitename := Value.str "Alpha"
  country := Value.str "DE"
  province_state_region := Value.str "Province"
  primary_target_type_identifier := Value.str "CR"
  target_types := Value.str "CR"
  primary_sensor := Value.str "C-band"
  special_requests := Value.boolean false
  responsible_organization := Value.str "Org"
  website := Value.nan
  active_from := Value.str "2020-01-01"
  active_until := Value.str "-"
  poc_name := Value.nan
  poc_mail := Value.str "poc@example.org"
  poc2_name := Value.null
  poc2_mail := Value.null
  centroid := Value.str ""
  boundaries := Value.str "POLYGON((0 0,0 1,1 1,1 0,0 0))"
  maintenance_schedule := Value.str "yearly"
  characteristics := Value.str "flat"

/-- A fully filled natural-target row whose `period_stop` is the open-ended
marker `"-"`. -/
def natRowDash : NatRow where
  unique_target_id := Value.str "NT1"
  short_site_identifier := Value.str "S001"
  sitename := Value.str "Alpha"
  subsite := Value.null
  internal_id := Value.null
  short_target_id := Value.str "T1"
  target_type_id := Value.str "DT"
  target_description := Value.str "snow field"
  geometry := Value.str "POLYGON((0 0,0 1,1 1,1 0,0 0))"
  coverage := Value.num 1
  mask_polygon := Value.null
  period_start := Value.str "2020-01-01"
  period_stop := Value.str "-"

/-- An artificial-target row whose single defect is the missing mandatory
`purpose` field. -/
def artRowMissingPurpose : ArtRow where
  unique_target_id := Value.str "AT1"
  short_site_identifier := Value.str "S001"
  sitename := Value.str "Alpha"
  short_target_id := Value.str "T1"
  target_type_id := Value.str "CR"
  apprx_latitude := Value.num 10
  apprx_longitude := Value.num 20
  apprx_elevation := Value.num 100
  apprx_azimuth := Value.num 15
  apprx_boresight := Value.num 30
  primary_direction := Value.str "N"
  side_length := Value.num 1
  operational := Value.str "yes"
  purpose := Value.nan
  rcs := Value.null
  rcs_accuracy := Value.null
  rcs_angle := Value.null
  rcs_wavelength := Value.null
  rcs_bandwidth := Value.null

/-- An artificial-target row whose single defect is the non-numeric
latitude string `"abc"`. -/
def artRowStrLat : ArtRow where
  unique_target_id := Value.str "AT1"
  short_site_identifier := Value.str "S001"
  sitename := Value.str "Alpha"
  short_target_id := Value.str "T1"
  target_type_id := Value.str "CR"
  apprx_latitude := Value.str "abc"
  apprx_longitude := Value.num 20
  apprx_elevation := Value.num 100
  apprx_azimuth := Value.num 15
  apprx_boresight := Value.num 30
  primary_direction := Value.str "N"
  side_length := Value.num 1
  operational := Value.str "yes"
  purpose := Value.str "calibration"
  rcs := Value.null
  rcs_accuracy := Value.null
  rcs_angle := Value.null
  rcs_wavelength := Value.null
  rcs_bandwidth := Value.null

/-- Two fresh targets, no stored unavailability periods yet. -/
def c2Db : List (String × TargetRec) :=
  [("T1", ⟨[], [], Option.none⟩), ("T2", ⟨[], [], Option.none⟩)]

/-- Unavailability batch A: one period for T1 and one for T2. -/
def c2BatchA : List URow :=
  [⟨"T1", "2021-01-01", "2021-02-01"⟩, ⟨"T2", "2021-03-01", "2021-04-01"⟩]

/-- Unavailability batch B: one period for T1 and one for T2. -/
def c2BatchB : List URow :=
  [⟨"T1", "2022-01-01", "2022-02-01"⟩, ⟨"T2", "2022-03-01", "2022-04-01"⟩]

/-- A site row whose centroid begins with `POINT` but contains a
comma-separated decimal pair. -/
def c4PointCommaRow : SiteRow :=
  { siteRowOneDefect with centroid := Value.str "POINT(0.5, 0.5)" }

/-- A site row whose centroid is a comma-free WKT point. -/
def c4PointKeptRow : SiteRow :=
  { siteRowOneDefect with centroid := Value.str "POINT(1 2)" }

/-- A site row whose centroid is a decimal `lat, lon` pair. -/
def c4LatLonRow : SiteRow :=
  { siteRowOneDefect with centroid := Value.str "36.578, 120.356" }

/- ------------------------------------------------------------------ -/
/- Theorems                                                           -/
/- ------------------------------------------------------------------ -/

lemma foldMsgs_error (m : Bool) (e : List String × Exc) (msgs : List String) :
    foldMsgs m (.error e) msgs = .error e := by
  induction msgs with
  | nil => rfl
  | cons s t ih => simpa [foldMsgs, List.foldl_cons] using ih

lemma foldMsgs_true (log : List String) (msgs : List String) :
    foldMsgs true (.ok log) msgs = .ok (log ++ msgs) := by
  induction msgs generalizing log with
  | nil => simp [foldMsgs]
  | cons s t ih =>
    simp only [foldMsgs, List.foldl_cons]
    have h := ih (log ++ [s])
    simp only [foldMsgs] at h
    simpa [List.append_assoc] using h

lemma foldMsgs_false_cons (log : List String) (s : String) (t : List String) :
    foldMsgs false (.ok log) (s :: t) = .error (log, Exc.valueError s) := by
  have h := foldMsgs_error false (log, Exc.valueError s) t
  simp only [foldMsgs, List.foldl_cons]
  simpa [foldMsgs] using h

lemma runChk_ok_eq_foldMsgs (m : Bool) (acc : VRes) (c : Chk)
    (h : ∀ e, c ≠ Except.error e) :
    runChk m acc c = foldMsgs m acc (chkToMsgs c) := by
  cases acc with
  | error e => cases c <;> simp [runChk, foldMsgs_error, chkToMsgs]
  | ok log =>
    cases c with
    | error e => exact absurd rfl (h e)
    | ok o => cases o <;> rfl

lemma lookup_mem {α β : Type} [BEq α] [LawfulBEq α] {a : α} {b : β} :
    ∀ {l : List (α × β)}, List.lookup a l = some b → (a, b) ∈ l := by
  intro l
  induction l with
  | nil => intro h; simp [List.lookup] at h
  | cons p t ih =>
    intro h
    rw [List.lookup] at h
    by_cases hk : a == p.1
    · simp only [hk] at h
      cases h
      have : a = p.1 := eq_of_beq hk
      subst this
      exact List.mem_cons_self _ _
    · simp only [Bool.not_eq_true] at hk
      simp only [hk] at h
      exact List.mem_cons_of_mem _ (ih h)

lemma renameRow_idem (tbl : List (String × String))
    (h : ∀ p ∈ tbl, List.lookup p.2 tbl = Option.none)
    (row : List (String × Value)) :
    renameRow tbl (renameRow tbl row) = renameRow tbl row := by
  unfold renameRow
  rw [List.map_map]
  apply List.map_congr_left
  intro p _
  simp only [Function.comp_apply]
  cases hl : List.lookup p.1 tbl with
  | none => simp [hl]
  | some v =>
    have hmem : (p.1, v) ∈ tbl := lookup_mem hl
    simp [hl, h (p.1, v) hmem]

lemma siteRenameTable_values_not_keys :
    ∀ p ∈ siteRenameTable, List.lookup p.2 siteRenameTable = Option.none := by
  decide

lemma artTargetRenameTable_values_not_keys :
    ∀ p ∈ artTargetRenameTable,
      List.lookup p.2 artTargetRenameTable = Option.none := by
  decide

/-- C9: applying a record kind's label-to-canonical-name rename table twice
produces the same row as applying it once (shown for the site table and the
artificial-target table); unmapped labels and already-canonical names are
unaffected by a second pass. -/
theorem C9_idempotent_field_mapping :
    (∀ row, renameRow siteRenameTable (renameRow siteRenameTable row) =
      renameRow siteRenameTable row)
    ∧ (∀ row, renameRow artTargetRenameTable (renameRow artTargetRenameTable row) =
      renameRow artTargetRenameTable row)
    ∧ (∀ v, renameRow siteRenameTable [("some unknown label", v), ("sitename", v)] =
      [("some unknown label", v), ("sitename", v)]) := by
  refine ⟨renameRow_idem _ siteRenameTable_values_not_keys,
          renameRow_idem _ artTargetRenameTable_values_not_keys, ?_⟩
  intro v
  rfl

/-- C10: in each of the five ingestion operations the length-guarded
`insert_into_collection` call happens iff the assembled record set is
non-empty; on an empty record set no write occurs and `do_site_ingestion`
returns the empty list of site identifiers. -/
theorem C10_empty_batch_no_write :
    (∀ gdf, (do_site_ingestion gdf).1 ≠ [] ↔ gdf ≠ [])
    ∧ do_site_ingestion [] = ([], [])
    ∧ (∀ gdf, ingest_nat_targets_tail gdf ≠ [] ↔ gdf ≠ [])
    ∧ (∀ gdf, ingest_art_targets_tail gdf ≠ [] ↔ gdf ≠ [])
    ∧ (∀ gdf, ingest_nat_surveys_tail gdf ≠ [] ↔ gdf ≠ [])
    ∧ (∀ gdf, ingest_art_surveys_tail gdf ≠ [] ↔ gdf ≠ []) := by
  refine ⟨?_, rfl, ?_, ?_, ?_, ?_⟩ <;>
  · intro gdf
    cases gdf <;> simp [do_site_ingestion, ingest_nat_targets_tail,
      ingest_art_targets_tail, ingest_nat_surveys_tail, ingest_art_surveys_tail]

lemma chkActiveFrom_not_error (pd : String → Bool) (i : Nat) (r : SiteRow)
    (hf : r.active_from.isStr = true) :
    ∀ e, chkActiveFrom pd i r ≠ Except.error e := by
  intro e
  cases hc : r.active_from
  case str s => simp [chkActiveFrom, hc]
  all_goals (rw [hc] at hf; simp [Value.isStr] at hf)

lemma chkActiveUntil_not_error (pd : String → Bool) (i : Nat) (r : SiteRow)
    (hu : r.active_until.isStr = true) :
    ∀ e, chkActiveUntil pd i r ≠ Except.error e := by
  intro e
  cases hc : r.active_until
  case str s =>
    simp only [chkActiveUntil, hc]
    split <;> simp
  all_goals (rw [hc] at hu; simp [Value.isStr] at hu)

lemma chkWebsite_not_error (st : String → Nat) (i : Nat) (w : Value)
    (hw : (w.isStr || w == Value.nan || w == Value.null) = true) :
    ∀ e, chkWebsite st i w ≠ Except.error e := by
  intro e
  cases hc : w
  case str s =>
    simp only [chkWebsite]
    split
    · simp
    · split
      · simp
      · simp
  case nan => simp [chkWebsite, pyTruthy, pyStr]
  case null => simp [chkWebsite, pyTruthy]
  all_goals (rw [hc] at hw; simp [Value.isStr] at hw)

lemma foldMsgs_append (m : Bool) (acc : VRes) (a b : List String) :
    foldMsgs m acc (a ++ b) = foldMsgs m (foldMsgs m acc a) b := by
  simp [foldMsgs, List.foldl_append]

lemma siteRowRun_eq (pd : String → Bool) (st : String → Nat) (m : Bool)
    (acc : VRes) (ir : Nat × SiteRow) (h : wfSiteRow ir.2 = true) :
    siteRowRun pd st m acc ir = foldMsgs m acc (siteRowMsgs pd st ir.1 ir.2) := by
  obtain ⟨i, r⟩ := ir
  simp only [wfSiteRow, Bool.and_eq_true] at h
  obtain ⟨⟨hf, hu⟩, hw⟩ := h
  unfold siteRowRun siteRowMsgs
  rw [runChk_ok_eq_foldMsgs _ _ _ (chkWebsite_not_error st i r.website hw),
      runChk_ok_eq_foldMsgs _ _ _ (chkActiveUntil_not_error pd i r hu),
      runChk_ok_eq_foldMsgs _ _ _ (chkActiveFrom_not_error pd i r hf)]
  rw [foldMsgs_append, foldMsgs_append, foldMsgs_append]

lemma siteRowRun_error (pd : String → Bool) (st : String → Nat) (m : Bool)
    (e : List String × Exc) (ir : Nat × SiteRow) :
    siteRowRun pd st m (.error e) ir = .error e := by
  unfold siteRowRun
  rw [foldMsgs_error]
  rfl

lemma foldl_siteRowRun_error (pd : String → Bool) (st : String → Nat) (m : Bool)
    (e : List String × Exc) (irows : List (Nat × SiteRow)) :
    irows.foldl (siteRowRun pd st m) (.error e) = .error e := by
  induction irows with
  | nil => rfl
  | cons ir t ih => rw [List.foldl_cons, siteRowRun_error]; exact ih

lemma validate_sites_go_true (pd : String → Bool) (st : String → Nat) :
    ∀ (irows : List (Nat × SiteRow)) (log : List String),
      (∀ ir ∈ irows, wfSiteRow ir.2 = true) →
      irows.foldl (siteRowRun pd st true) (.ok log) =
        .ok (log ++ (irows.map (fun ir => siteRowMsgs pd st ir.1 ir.2)).flatten) := by
  intro irows
  induction irows with
  | nil => intro log _; simp
  | cons ir t ih =>
    intro log h
    rw [List.foldl_cons, siteRowRun_eq pd st true _ _ (h ir (List.mem_cons_self _ _)),
        foldMsgs_true]
    rw [ih (log ++ siteRowMsgs pd st ir.1 ir.2)
      (fun x hx => h x (List.mem_cons_of_mem _ hx))]
    simp [List.append_assoc]

lemma validate_sites_true (pd : String → Bool) (st : String → Nat)
    (irows : List (Nat × SiteRow)) (h : ∀ ir ∈ irows, wfSiteRow ir.2 = true) :
    validate_sites pd st true irows =
      .ok ((irows.map (fun ir => siteRowMsgs pd st ir.1 ir.2)).flatten) := by
  unfold validate_sites
  simpa using validate_sites_go_true pd st irows [] h

lemma validate_sites_false_single (pd : String → Bool) (st : String → Nat) :
    ∀ (irows : List (Nat × SiteRow)) (m0 : String),
      (∀ ir ∈ irows, wfSiteRow ir.2 = true) →
      (irows.map (fun ir => siteRowMsgs pd st ir.1 ir.2)).flatten = [m0] →
      validate_sites pd st false irows = .error ([], Exc.valueError m0) := by
  intro irows
  unfold validate_sites
  induction irows with
  | nil => intro m0 _ hdef; simp at hdef
  | cons ir t ih =>
    intro m0 hwf hdef
    rw [List.foldl_cons,
        siteRowRun_eq pd st false _ _ (hwf ir (List.mem_cons_self _ _))]
    simp only [List.map_cons, List.flatten_cons] at hdef
    cases hmsgs : siteRowMsgs pd st ir.1 ir.2 with
    | nil =>
      rw [hmsgs] at hdef
      simp only [List.nil_append] at hdef
      exact ih m0 (fun x hx => hwf x (List.mem_cons_of_mem _ hx)) hdef
    | cons msg rest =>
      rw [hmsgs] at hdef
      have h1 : msg = m0 ∧ rest ++ (t.map (fun ir => siteRowMsgs pd st ir.1 ir.2)).flatten = [] := by
        simpa using hdef
      obtain ⟨rfl, _⟩ := h1
      rw [foldMsgs_false_cons]
      exact foldl_siteRowRun_error pd st false _ t

/-- C1 (counterexample): a batch consisting of one artificial-target row
whose only defect is the non-numeric latitude string `"abc"`: in validation
mode `validate_art_targets` emits exactly one diagnostic for that defect and
then aborts with an uncaught `TypeError` (the raw comparison
`"abc" < -90`), so the batch does NOT complete; commit mode raises the
(truncated) diagnostic as claimed. -/
theorem C1_counterexample :
    validate_art_targets true [(0, artRowStrLat)] =
      .error ([artInvalidMsg 0], Exc.typeError)
    ∧ validate_art_targets false [(0, artRowStrLat)] =
      .error ([], Exc.valueError (artInvalidMsg 0)) := by
  constructor <;> rfl

/-- C1 (amended): mode duality for the SITES validator.  For a batch of
well-formed site rows whose checks produce exactly one failure message,
validation mode completes the batch and emits exactly that diagnostic while
`ingest_sites` returns the empty identifier list with no database call, and
commit mode raises a `ValueError` carrying the same message so `ingest_sites`
aborts before any insert.  (For the artificial-target validator the property
fails: a row whose single defect is a non-numeric value in a numeric field
aborts validation mode with an uncaught `TypeError`.) -/
theorem C1_mode_duality_sites (pd : String → Bool) (st : String → Nat)
    (rows : List SiteRow) (m0 : String)
    (hwf : ∀ ir ∈ keptRows rows, wfSiteRow ir.2 = true)
    (hdef : ((keptRows rows).map (fun ir => siteRowMsgs pd st ir.1 ir.2)).flatten = [m0]) :
    validate_sites pd st true (keptRows rows) = .ok [m0]
    ∧ ingest_sites pd st true rows = .ok ⟨[m0], [], []⟩
    ∧ validate_sites pd st false (keptRows rows) = .error ([], Exc.valueError m0)
    ∧ ingest_sites pd st false rows = .error ([], Exc.valueError m0) := by
  have ht : validate_sites pd st true (keptRows rows) = .ok [m0] := by
    rw [validate_sites_true pd st _ hwf, hdef]
  have hf : validate_sites pd st false (keptRows rows) = .error ([], Exc.valueError m0) :=
    validate_sites_false_single pd st (keptRows rows) m0 hwf hdef
  refine ⟨ht, ?_, hf, ?_⟩
  · simp [ingest_sites, create_site_gdf, ht]
  · simp [ingest_sites, create_site_gdf, hf]

/-- C1 (witness): the amended theorem applied to a one-row batch whose single
defect is the missing mandatory `poc_name`. -/
theorem C1_witness :
    validate_sites datePd status200 true (keptRows [siteRowOneDefect]) =
      .ok [siteMissingMsg 0 "poc_name"]
    ∧ ingest_sites datePd status200 true [siteRowOneDefect] =
      .ok ⟨[siteMissingMsg 0 "poc_name"], [], []⟩
    ∧ validate_sites datePd status200 false (keptRows [siteRowOneDefect]) =
      .error ([], Exc.valueError (siteMissingMsg 0 "poc_name"))
    ∧ ingest_sites datePd status200 false [siteRowOneDefect] =
      .error ([], Exc.valueError (siteMissingMsg 0 "poc_name")) :=
  C1_mode_duality_sites datePd status200 [siteRowOneDefect] (siteMissingMsg 0 "poc_name")
    (by decide) (by decide)

/-- C5 (counterexample): a website for which only the `http://` form returns
an error status (404) while the `https://` form is fine (200).  The claim
says the check fails only when BOTH forms error and that both forms are
attempted; the code fails the check on this input and never fetches the
`https://` form. -/
theorem C5_counterexample :
    websiteFails (fun u => if u = "https://example.org" then 200 else 404)
      "example.org" = true
    ∧ (fun u => if u = "https://example.org" then (200 : Nat) else 404)
        "https://example.org" < 400
    ∧ websiteRequests (fun u => if u = "https://example.org" then 200 else 404)
        "example.org" = ["http://example.org"] := by
  refine ⟨?_, ?_, ?_⟩ <;> decide

/-- C5 (amended): for a website value with no scheme, the check fails iff AT
LEAST ONE of the two schemed forms returns a status ≥ 400, and the
`https://` form is only fetched when the `http://` form did not error
(Python `or` short-circuit). -/
theorem C5_website_liveness_amended :
    ∀ (st : String → Nat) (w : String), ¬ strStarts w "http" →
      (websiteFails st w = true ↔
        (st ("http://" ++ w) ≥ 400 ∨ st ("https://" ++ w) ≥ 400))
      ∧ websiteRequests st w =
          (if st ("http://" ++ w) ≥ 400 then ["http://" ++ w]
           else ["http://" ++ w, "https://" ++ w]) := by
  intro st w h
  constructor
  · unfold websiteFails
    rw [if_neg h]
    simp [Bool.or_eq_true, decide_eq_true_eq]
  · unfold websiteRequests
    rw [if_neg h]

/-- C5 (witness): the amended statement at a status oracle that errors on
everything and the scheme-free website `"a.org"`. -/
theorem C5_witness :
    (websiteFails (fun _ => 500) "a.org" = true ↔
      ((fun _ => (500 : Nat)) ("http://" ++ "a.org") ≥ 400 ∨
        (fun _ => (500 : Nat)) ("https://" ++ "a.org") ≥ 400))
    ∧ websiteRequests (fun _ => 500) "a.org" =
      (if (fun _ => (500 : Nat)) ("http://" ++ "a.org") ≥ 400 then ["http://" ++ "a.org"]
       else ["http://" ++ "a.org", "https://" ++ "a.org"]) :=
  C5_website_liveness_amended (fun _ => 500) "a.org" (by decide)

/-- C3 (code bug, evaluated at the failing input): an artificial-target row
at sheet index 0 whose mandatory `purpose` is missing.  Commit mode raises —
and validation mode prints — the truncated message
`"cr, row 6: missing entry for mandatory field "`, which does not contain
the field name `purpose` (the sheet tag and the display row 0+6 are
present); the sites validator, by contrast, does name the field. -/
theorem C3_missing_field_message_nameless :
    validate_art_targets false [(0, artRowMissingPurpose)] =
      .error ([], Exc.valueError (artMissingMsg 0))
    ∧ validate_art_targets true [(0, artRowMissingPurpose)] = .ok [artMissingMsg 0]
    ∧ artMissingMsg 0 = "cr, row 6: missing entry for mandatory field "
    ∧ containsSub "purpose".data (artMissingMsg 0).data = false
    ∧ containsSub "poc_name".data (siteMissingMsg 0 "poc_name").data = true :=
  ⟨rfl, rfl, by decide, by decide, by decide⟩

/-- C6 (counterexample): a natural-target row whose `period_stop` is `"-"`:
by the time `validate_nat_targets` sees the row the value is already null
(the `replace("-", None)` runs BEFORE validation), so the sentinel does not
survive into validation; the row passes silently. -/
theorem C6_counterexample :
    (ingest_nat_targets_validation_input [natRowDash]).map (fun ir => ir.2.period_stop) =
      [Value.null]
    ∧ validate_nat_targets false (ingest_nat_targets_validation_input [natRowDash]) = .ok []
    ∧ Value.null ≠ Value.str "-" :=
  ⟨rfl, rfl, by decide⟩

/-- C6 (amended): for site rows the claim holds — `"-"` in `active_until`
is accepted by the validator as the open-ended marker and is nulled only by
the post-validation normalization; for natural-target rows, `"-"` in
`period_stop` is nulled by the pre-validation replacements, i.e. before
`validate_nat_targets` runs. -/
theorem C6_open_ended_sentinel :
    (∀ (pd : String → Bool) (i : Nat) (r : SiteRow),
      r.active_until = Value.str "-" → chkActiveUntil pd i r = .ok Option.none)
    ∧ (∀ r : SiteRow, r.active_until = Value.str "-" →
        (normalizeSiteRow r).active_until = Value.null)
    ∧ (∀ r : NatRow, r.period_stop = Value.str "-" →
        (natPreprocessRow r).period_stop = Value.null) := by
  refine ⟨?_, ?_, ?_⟩
  · intro pd i r h
    simp [chkActiveUntil, h]
  · intro r h
    simp [normalizeSiteRow, normCellSite, h]
  · intro r h
    simp [natPreprocessRow, natReplaceCell, h]

/-- C6 (witness): the amended statement at a concrete site row with
`active_until = "-"` and the concrete natural-target row with
`period_stop = "-"`. -/
theorem C6_witness :
    chkActiveUntil datePd 0 siteRowOneDefect = .ok Option.none
    ∧ (normalizeSiteRow siteRowOneDefect).active_until = Value.null
    ∧ (natPreprocessRow natRowDash).period_stop = Value.null :=
  ⟨C6_open_ended_sentinel.1 datePd 0 siteRowOneDefect rfl,
   C6_open_ended_sentinel.2.1 siteRowOneDefect rfl,
   C6_open_ended_sentinel.2.2 natRowDash rfl⟩

/-- C7: for numeric cells of an artificial-survey row, in either mode, the
latitude check passes iff −90 ≤ v ≤ 90, longitude iff −180 ≤ v ≤ 180,
azimuth and tilt iff 0 ≤ v < 360, and boresight iff −360 ≤ v ≤ 360
("passes" = no diagnostic printed and no error raised). -/
theorem C7_range_enforcement :
    ∀ (m : Bool) (i : Nat) (v : ℚ),
      (validate_lat m i (Value.num v) = .ok [] ↔ (-90 ≤ v ∧ v ≤ 90))
      ∧ (validate_lon m i (Value.num v) = .ok [] ↔ (-180 ≤ v ∧ v ≤ 180))
      ∧ (validate_azimuth_angle m i (Value.num v) = .ok [] ↔ (0 ≤ v ∧ v < 360))
      ∧ (validate_tilt m i (Value.num v) = .ok [] ↔ (0 ≤ v ∧ v < 360))
      ∧ (validate_boresight_angle m i (Value.num v) = .ok [] ↔ (-360 ≤ v ∧ v ≤ 360)) := by
  intro m i v
  refine ⟨?_, ?_, ?_, ?_, ?_⟩
  · have h : (validate_lat m i (Value.num v) = .ok []) ↔ (¬ v < -90 ∧ ¬ v > 90) := by
      by_cases h1 : v < -90 <;> by_cases h2 : v > 90 <;> cases m <;>
        simp [validate_lat, rangeChk, cmpLt, cmpGt, runChk, h1, h2]
    simpa [not_lt] using h
  · have h : (validate_lon m i (Value.num v) = .ok []) ↔ (¬ v < -180 ∧ ¬ v > 180) := by
      by_cases h1 : v < -180 <;> by_cases h2 : v > 180 <;> cases m <;>
        simp [validate_lon, rangeChk, cmpLt, cmpGt, runChk, h1, h2]
    simpa [not_lt] using h
  · have h : (validate_azimuth_angle m i (Value.num v) = .ok []) ↔ ¬ (v < 0 ∨ v ≥ 360) := by
      by_cases h1 : v < 0 ∨ v ≥ 360 <;> cases m <;>
        simp [validate_azimuth_angle, azimuthChk, runChk, h1]
    rw [h]
    simp [not_or, not_lt, not_le]
  · have h : (validate_tilt m i (Value.num v) = .ok []) ↔ ¬ (v < 0 ∨ v ≥ 360) := by
      by_cases h1 : v < 0 ∨ v ≥ 360 <;> cases m <;>
        simp [validate_tilt, tiltChk, runChk, h1]
    rw [h]
    simp [not_or, not_lt, not_le]
  · have h : (validate_boresight_angle m i (Value.num v) = .ok []) ↔ ¬ (v < -360 ∨ v > 360) := by
      by_cases h1 : v < -360 ∨ v > 360 <;> cases m <;>
        simp [validate_boresight_angle, boresightChk, runChk, h1]
    rw [h]
    simp [not_or, not_lt]

/-- C8: a duration cell passes validation iff splitting it on `":"` yields
exactly three parts each accepted by `int()`; the two-part value `"12:30"`
is reported as an invalid-format diagnostic in validation mode and raised in
commit mode. -/
theorem C8_duration_format :
    (∀ (m : Bool) (i : Nat) (s : String),
      (validate_duration m i (Value.str s) = .ok [] ↔
        ((pySplit ':' s).length = 3 ∧ ∀ p ∈ pySplit ':' s, pyIntParses p = true)))
    ∧ validate_duration true 0 (Value.str "12:30") = .ok [surveyDurationMsg 0]
    ∧ validate_duration false 0 (Value.str "12:30") =
      .error ([], Exc.valueError (surveyDurationMsg 0)) := by
  refine ⟨?_, rfl, rfl⟩
  intro m i s
  have key : validate_duration m i (Value.str s) = .ok [] ↔
      ((pySplit ':' s).length = 3 && (pySplit ':' s).all pyIntParses) = true := by
    by_cases hc : ((pySplit ':' s).length = 3 && (pySplit ':' s).all pyIntParses) = true
    · simp [validate_duration, durationChk, runChk, hc]
    · rw [Bool.not_eq_true] at hc
      cases m <;> simp [validate_duration, durationChk, runChk, hc]
  rw [key, Bool.and_eq_true, List.all_eq_true]
  simp

/-- C2 (code bug, evaluated at the failing input): ingesting batch A then
batch B, each holding one period for target T1 and one for T2, leaves T2
with T1's periods (`unavailabilities[...][0]` always reads the first sorted
group), not with its own concatenation; for a single-target batch the
claimed append-never-replace accumulation does hold. -/
theorem C2_unavailability_accumulation_eval :
    ingest_unavailabilities c2Db "formA" c2BatchA =
      .ok [("T1", ⟨["2021-01-01"], ["2021-02-01"], some ["formA"]⟩),
           ("T2", ⟨["2021-01-01"], ["2021-02-01"], some ["formA"]⟩)]
    ∧ ingest_unavailabilities
        [("T1", ⟨["2021-01-01"], ["2021-02-01"], some ["formA"]⟩),
         ("T2", ⟨["2021-01-01"], ["2021-02-01"], some ["formA"]⟩)] "formB" c2BatchB =
      .ok [("T1", ⟨["2021-01-01", "2022-01-01"], ["2021-02-01", "2022-02-01"],
              some ["formA", "formB"]⟩),
           ("T2", ⟨["2021-01-01", "2022-01-01"], ["2021-02-01", "2022-02-01"],
              some ["formA", "formB"]⟩)]
    ∧ (["2021-01-01", "2022-01-01"] : List String) ≠ ["2021-03-01", "2022-03-01"]
    ∧ ingest_unavailabilities [("T1", ⟨[], [], Option.none⟩)] "fA"
        [⟨"T1", "2021-01-01", "2021-02-01"⟩] =
      .ok [("T1", ⟨["2021-01-01"], ["2021-02-01"], some ["fA"]⟩)]
    ∧ ingest_unavailabilities [("T1", ⟨["2021-01-01"], ["2021-02-01"], some ["fA"]⟩)] "fB"
        [⟨"T1", "2022-01-01", "2022-02-01"⟩] =
      .ok [("T1", ⟨["2021-01-01", "2022-01-01"], ["2021-02-01", "2022-02-01"],
              some ["fA", "fB"]⟩)] :=
  ⟨rfl, rfl, by decide, rfl, rfl⟩

/-- C4 (counterexample): the centroid value `"POINT(0.5, 0.5)"` begins with
`POINT` but is NOT kept unchanged: the comma-separated decimal-pair pattern
is tested first and rewrites it to the garbled `"POINT(0.5) POINT(0.5)"`. -/
theorem C4_counterexample :
    strStarts (upperStr (pyStr c4PointCommaRow.centroid)) "POINT" = true
    ∧ compute_centroid_from_boundaries false 0 c4PointCommaRow =
      .ok ([], some { c4PointCommaRow with centroid := Value.str "POINT(0.5) POINT(0.5)" })
    ∧ ({ c4PointCommaRow with centroid := Value.str "POINT(0.5) POINT(0.5)" } : SiteRow) ≠
      c4PointCommaRow :=
  ⟨by decide, rfl, by decide⟩

/-- C4 (amended): centroid derivation.  A blank centroid (empty string or
NaN) is replaced by the WKT point at the shoelace centroid of the boundary
polygon (scenario: the unit square yields `POINT(0.5 0.5)`).  A non-blank
value matching the code's comma-separated decimal-pair pattern is rewritten
to a lon-lat WKT point (this pattern is tested BEFORE the `POINT` prefix,
and requires two characters per number, so `"3, 4"` is not recognized); a
value beginning with `POINT` that does not match the pair pattern is kept
unchanged; any other value is an invalid-centroid failure, printed in
validation mode and raised in commit mode. -/
theorem C4_centroid_derivation :
    (∀ (m : Bool) (i : Nat) (r : SiteRow) (w : String) (poly : List (ℚ × ℚ)) (c : ℚ × ℚ),
      (r.centroid = Value.str "" ∨ r.centroid = Value.nan) →
      r.boundaries = Value.str w →
      parsePolygonWkt w = some poly →
      polyCentroid poly = some c →
      compute_centroid_from_boundaries m i r =
        .ok ([], some { r with centroid := Value.str (pointWkt c) }))
    ∧ (∀ (m : Bool) (i : Nat) (r : SiteRow),
      ¬(r.centroid = Value.str "" ∨ r.centroid = Value.nan) →
      regexSearchPair (pyStr r.centroid) = true →
      compute_centroid_from_boundaries m i r =
        .ok ([], some { r with
          centroid := Value.str ("POINT(" ++ pyStrip (((pySplit ',' (pyStr r.centroid)).drop 1).headD "") ++ " " ++ pyStrip ((pySplit ',' (pyStr r.centroid)).headD "") ++ ")") }))
    ∧ (∀ (m : Bool) (i : Nat) (r : SiteRow),
      ¬(r.centroid = Value.str "" ∨ r.centroid = Value.nan) →
      regexSearchPair (pyStr r.centroid) = false →
      strStarts (upperStr (pyStr r.centroid)) "POINT" = true →
      compute_centroid_from_boundaries m i r = .ok ([], some r))
    ∧ (∀ (i : Nat) (r : SiteRow),
      ¬(r.centroid = Value.str "" ∨ r.centroid = Value.nan) →
      regexSearchPair (pyStr r.centroid) = false →
      strStarts (upperStr (pyStr r.centroid)) "POINT" = false →
      compute_centroid_from_boundaries true i r = .ok ([siteCentroidMsg i], Option.none)
      ∧ compute_centroid_from_boundaries false i r =
        .error ([], Exc.valueError (siteCentroidMsg i)))
    ∧ compute_centroid_from_boundaries false 0 siteRowOneDefect =
      .ok ([], some { siteRowOneDefect with centroid := Value.str "POINT(0.5 0.5)" })
    ∧ compute_centroid_from_boundaries false 0 c4LatLonRow =
      .ok ([], some { c4LatLonRow with centroid := Value.str "POINT(120.356 36.578)" }) := by
  refine ⟨?_, ?_, ?_, ?_, rfl, rfl⟩
  · intro m i r w poly c hb hbound hparse hcent
    unfold compute_centroid_from_boundaries
    rw [if_pos hb, hbound]
    simp only [hparse, hcent]
  · intro m i r hb hre
    unfold compute_centroid_from_boundaries
    rw [if_neg hb, if_pos hre]
  · intro m i r hb hre hst
    unfold compute_centroid_from_boundaries
    rw [if_neg hb]
    rw [if_neg (by simp [hre]), if_pos hst]
  · intro i r hb hre hst
    constructor <;>
    · unfold compute_centroid_from_boundaries
      rw [if_neg hb]
      rw [if_neg (by simp [hre]), if_neg (by simp [hst])]
      rfl

/-- C4 (witness): the amended statement instantiated at the unit-square
scenario row (blank centroid) and at a row whose centroid is a comma-free
WKT point. -/
theorem C4_witness :
    compute_centroid_from_boundaries false 0 siteRowOneDefect =
      .ok ([], some { siteRowOneDefect with
        centroid := Value.str (pointWkt (mkRat 1 2, mkRat 1 2)) })
    ∧ compute_centroid_from_boundaries false 0 c4PointKeptRow = .ok ([], some c4PointKeptRow) :=
  ⟨C4_centroid_derivation.1 false 0 siteRowOneDefect "POLYGON((0 0,0 1,1 1,1 0,0 0))"
      [(0, 0), (0, 1), (1, 1), (1, 0), (0, 0)] (mkRat 1 2, mkRat 1 2)
      (Or.inl rfl) rfl (by decide) (by decide),
   C4_centroid_derivation.2.2.1 false 0 c4PointKeptRow (by decide) (by decide) (by decide)⟩
